import Mathlib

/-!
Shallow embedding of the Task-Mini-dApp client (two React components:
`TaskApp` in `src/unnamed/part_000` and `App` in `src/src/App.jsx`).

The components are sequential request/response glue around four contract
calls.  Each operation is embedded as a pure function from the component
state plus the outcomes of the external calls (wallet provider, contract
transaction, receipt, refetch) to the resulting state, the contract call
issued (if any), and the user-visible report (the terminal toast).
React `setX` updates are modelled as sequential state passing; where a
handler reads a state variable captured by its closure before a `setX`
in the same handler takes effect, the model passes that captured value
explicitly (`renderAccount` below).
-/

namespace Dapp

/-- A task record as returned by the Ledger Contract's `getMyTask`
(fields `id`, `taskTitle`, `taskText`, `isDeleted`). -/
structure Task where
  id : Nat
  taskTitle : String
  taskText : String
  isDeleted : Bool
deriving Repr, DecidableEq

/-- The unsubmitted draft held in the `newTask` state variable
(`{ title: "", text: "" }` initially). -/
structure Draft where
  title : String
  text : String
deriving Repr, DecidableEq

/-- Component state of `TaskApp` (part_000): the `useState` variables
`account`, `contract` (presence of the bound handle), `tasks`,
`newTask`, `loading`. -/
structure AppState where
  account : String
  contract : Bool
  tasks : List Task
  newTask : Draft
  loading : Bool
deriving Repr, DecidableEq

/-- A rejection coming back from the wallet provider or contract
boundary: ethers errors expose `message` and optionally `reason`. -/
structure JsError where
  message : String
  reason : Option String
deriving Repr, DecidableEq

/-- The user-visible reports the component emits (each constructor is one
distinct toast in the source; `errorToast` carries the displayed text of
the generic `toast.error(error.reason || error.message)` branch). -/
inductive Report where
  | connectFirst
  | titleEmpty
  | textEmpty
  | titleTooLong
  | textTooLong
  | notOwner
  | wrongNetwork
  | addSuccess
  | deleteSuccess
  | connectSuccess
  | errorToast (msg : String)
deriving Repr, DecidableEq

/-- The four draft-validation failures (`validateTaskInput` toasts). -/
def Report.isValidation : Report → Bool
  | .titleEmpty => true
  | .textEmpty => true
  | .titleTooLong => true
  | .textTooLong => true
  | _ => false

/-- Outcome of a submitted mutation at the network boundary: the
submission or `tx.wait()` rejects with an error, or it confirms with a
receipt whose `events` field is absent or a list of event names. -/
inductive TxOutcome where
  | rejected (e : JsError)
  | confirmed (events : Option (List String))
deriving Repr, DecidableEq

/-- The argument tuple of a `contract.addTask(text, title, isDeleted)`
invocation. -/
structure ContractCall where
  text : String
  title : String
  isDeleted : Bool
deriving Repr, DecidableEq

/-! ### JavaScript string primitives used by the source -/

/-- The characters `String.prototype.trim` strips: ECMAScript WhiteSpace
(TAB, VT, FF, SP, NBSP, ZWNBSP and the Unicode space separators) and
LineTerminator (LF, CR, LS, PS). -/
def isJsWhitespace (c : Char) : Bool :=
  c = '\x09' || c = '\x0a' || c = '\x0b' || c = '\x0c' || c = '\x0d' ||
  c = ' ' || c = ' ' || c = ' ' ||
  (' ' ≤ c && c ≤ ' ') ||
  c = ' ' || c = ' ' || c = ' ' || c = ' ' ||
  c = '　' || c = '﻿'

/-- JavaScript `s.trim()`: drop leading and trailing whitespace. -/
def jsTrim (s : String) : String :=
  String.mk (((s.data.dropWhile isJsWhitespace).reverse.dropWhile isJsWhitespace).reverse)

/-- Substring occurrence over character lists (helper for `jsIncludes`). -/
def charListIncludes (sub : List Char) : List Char → Bool
  | [] => sub.isPrefixOf []
  | c :: cs => sub.isPrefixOf (c :: cs) || charListIncludes sub cs

/-- JavaScript `s.includes(sub)`: substring containment. -/
def jsIncludes (s sub : String) : Bool :=
  charListIncludes sub.data s.data

/-- JavaScript `m || fallback` on strings: the fallback replaces an empty
(falsy) message. -/
def msgOr (m fallback : String) : String :=
  if m = "" then fallback else m

/-! ### Loading tasks (part_000 `loadTasks`, lines 127-147) -/

/-- The list committed by `loadTasks` from a successful `getMyTask`
result: `allTasks.filter((task) => !task.isDeleted).sort((a, b) => b.id - a.id)`.
JavaScript `Array.prototype.sort` is a stable sort and the comparator
`b.id - a.id` orders by `id` descending, so it is embedded as the stable
`insertionSort` under `b.id ≤ a.id`. -/
def activeTasks (allTasks : List Task) : List Task :=
  List.insertionSort (fun a b : Task => b.id ≤ a.id)
    (allTasks.filter (fun t => !t.isDeleted))

/-- Core of `loadTasks`: given the `account` value its closure reads, the
presence of the `taskContract` argument, the previous list and the fetch
outcome, the resulting local list.  The guard `!account || !taskContract`
returns early; a fetch error leaves the previous list (no `setTasks`). -/
def loadTasksList (account : String) (hasContract : Bool) (prev : List Task)
    (fetch : Except JsError (List Task)) : List Task :=
  if account = "" || !hasContract then prev
  else
    match fetch with
    | .ok allTasks => activeTasks allTasks
    | .error _ => prev

/-- State transition of `loadTasks(taskContract)`.  `renderAccount` is
the value of the `account` state variable captured by the calling
closure (callers that just issued `setAccount` still see the old value).
Past the guard, `finally` leaves `loading` false. -/
def runLoadTasks (renderAccount : String) (s : AppState)
    (fetch : Except JsError (List Task)) : AppState :=
  if renderAccount = "" || !s.contract then s
  else
    { s with tasks := loadTasksList renderAccount s.contract s.tasks fetch,
             loading := false }

/-- `loadTasks` invoked from a context whose captured `account` is the
current one (the post-mutation refreshes). -/
def loadTasksState (s : AppState) (fetch : Except JsError (List Task)) : AppState :=
  runLoadTasks s.account s fetch

/-! ### Fetching tasks (App.jsx `fetchTasks`, lines 51-64) -/

/-- `App.jsx` load path: `if (!contract) return;` then
`setTasks(taskList.filter((task) => !task.isDeleted))` on success, and
the previous list is kept on a fetch error. -/
def fetchTasks (hasContract : Bool) (prev : List Task)
    (fetch : Except JsError (List Task)) : List Task :=
  if !hasContract then prev
  else
    match fetch with
    | .ok taskList => taskList.filter (fun t => !t.isDeleted)
    | .error _ => prev

/-! ### Draft validation (part_000 `validateTaskInput`, lines 149-167) -/

/-- `validateTaskInput`: returns the first failing check's toast, or
`none` when the draft is valid.  The emptiness checks are on the trimmed
strings (`!newTask.title.trim()`), the length checks on the raw ones. -/
def validateTaskInput (d : Draft) : Option Report :=
  if jsTrim d.title = "" then some .titleEmpty
  else if jsTrim d.text = "" then some .textEmpty
  else if d.title.length > 100 then some .titleTooLong
  else if d.text.length > 500 then some .textTooLong
  else none

/-- Does a receipt's optional `events` list carry an event of this name?
(`receipt.events?.find((e) => e.event === name)` is defined and truthy). -/
def receiptHasEvent (events : Option (List String)) (name : String) : Bool :=
  (events.getD []).contains name

/-- The error thrown when a confirmed `addTask` receipt lacks the
`AddTask` event (a plain `Error`, so `reason` is absent). -/
def addEventMissing : JsError :=
  { message := "Add task event not found in transaction", reason := none }

/-- The error thrown when a confirmed `deleteTask` receipt lacks the
`DeleteTask` event. -/
def deleteEventMissing : JsError :=
  { message := "Delete task event not found in transaction", reason := none }

/-- The TypeError raised when `contract` is null and a method is read off
it (modelling artifact: the exact browser message is irrelevant, only
that it reaches the catch block with no `reason`). -/
def nullContractError : JsError :=
  { message := "Cannot read properties of null", reason := none }

/-! ### addTask (part_000, lines 169-210) -/

/-- Result of an `addTask` invocation: the final component state, the
`contract.addTask` argument tuple when the contract was invoked (`none`
means no network interaction), and the terminal toast. -/
structure AddOutcome where
  state : AppState
  call : Option ContractCall
  report : Report
deriving Repr, DecidableEq

/-- The catch block of `addTask`:
`toast.error(error.reason || error.message)`. -/
def addCatch (e : JsError) : Report :=
  .errorToast (e.reason.getD e.message)

/-- `addTask` embedded: guard on `account`, then `validateTaskInput`,
then `contract.addTask(text.trim(), title.trim(), false)`; on a
confirmed receipt the `AddTask` event is required, the draft is cleared
and `loadTasks(contract)` re-syncs; every failure lands in the catch
block and `finally` clears `loading`. -/
def addTask (s : AppState) (net : TxOutcome)
    (refetch : Except JsError (List Task)) : AddOutcome :=
  if s.account = "" then
    { state := s, call := none, report := .connectFirst }
  else
    match validateTaskInput s.newTask with
    | some r => { state := s, call := none, report := r }
    | none =>
      if !s.contract then
        { state := { s with loading := false }, call := none,
          report := addCatch nullContractError }
      else
        let call : ContractCall :=
          { text := jsTrim s.newTask.text, title := jsTrim s.newTask.title,
            isDeleted := false }
        match net with
        | .rejected e =>
          { state := { s with loading := false }, call := some call,
            report := addCatch e }
        | .confirmed events =>
          if receiptHasEvent events "AddTask" then
            let s1 := { s with newTask := { title := "", text := "" } }
            let s2 := runLoadTasks s1.account s1 refetch
            { state := { s2 with loading := false }, call := some call,
              report := .addSuccess }
          else
            { state := { s with loading := false }, call := some call,
              report := addCatch addEventMissing }

/-! ### deleteTask (part_000, lines 212-244) -/

/-- Result of a `deleteTask` invocation: final state, the id sent to
`contract.deleteTask` when it was invoked, and the terminal toast. -/
structure DeleteOutcome where
  state : AppState
  call : Option Nat
  report : Report
deriving Repr, DecidableEq

/-- The catch block of `deleteTask`:
`if (error.message.includes("owner"))` toast the ownership message, else
`toast.error(error.reason || error.message)`. -/
def deleteCatch (e : JsError) : Report :=
  if jsIncludes e.message "owner" then .notOwner
  else .errorToast (e.reason.getD e.message)

/-- `deleteTask(taskId)` embedded: guard on `account`, then
`contract.deleteTask(taskId)`; a confirmed receipt must carry the
`DeleteTask` event, then `loadTasks(contract)` re-syncs; every failure
lands in the catch block, which classifies by the "owner" substring. -/
def deleteTask (s : AppState) (taskId : Nat) (net : TxOutcome)
    (refetch : Except JsError (List Task)) : DeleteOutcome :=
  if s.account = "" then
    { state := s, call := none, report := .connectFirst }
  else if !s.contract then
    { state := { s with loading := false }, call := none,
      report := deleteCatch nullContractError }
  else
    match net with
    | .rejected e =>
      { state := { s with loading := false }, call := some taskId,
        report := deleteCatch e }
    | .confirmed events =>
      if receiptHasEvent events "DeleteTask" then
        let s1 := runLoadTasks s.account s refetch
        { state := { s1 with loading := false }, call := some taskId,
          report := .deleteSuccess }
      else
        { state := { s with loading := false }, call := some taskId,
          report := deleteCatch deleteEventMissing }

/-- The JSX disables every mutation trigger while `loading` is true
(`disabled={loading}` on the submit button and each delete button). -/
def deleteButtonDisabled (s : AppState) : Bool :=
  s.loading

/-! ### Account-change handling (part_000 `handleAccountChange`, lines 71-83) -/

/-- `handleAccountChange(accounts)`: an empty list clears `account` and
`tasks`; otherwise `account` becomes `accounts[0]` and, when a contract
handle exists, `loadTasks(contract)` runs (its guard reads the `account`
value captured before `setAccount` took effect). -/
def handleAccountChange (s : AppState) (accounts : List String)
    (fetch : Except JsError (List Task)) : AppState :=
  if accounts.isEmpty then
    { s with account := "", tasks := [] }
  else
    let s1 := { s with account := accounts.headD "" }
    if s.contract then runLoadTasks s.account s1 fetch else s1

/-! ### Wallet connection (part_000 `checkNetwork` lines 20-34 and
`connectWallet` lines 85-125) -/

/-- The hard-coded expected chain id (`const expectedNetwork = 1`). -/
def expectedNetwork : Nat := 1

/-- `checkNetwork(provider)`: compares `network.chainId` with
`expectedNetwork`, toasting on mismatch; a `getNetwork` failure is
logged only (no toast) and also reports not-ok. -/
def checkNetwork (network : Except JsError Nat) : Bool × Option Report :=
  match network with
  | .ok chainId =>
    if chainId ≠ expectedNetwork then (false, some .wrongNetwork) else (true, none)
  | .error _ => (false, none)

/-- Environment of one `connectWallet` run: provider presence and the
outcomes of `getNetwork`, `eth_requestAccounts`, `getCode` and the
subsequent `getMyTask` fetch. -/
structure ConnectEnv where
  hasEthereum : Bool
  network : Except JsError Nat
  accounts : Except JsError (List String)
  code : Except JsError String
  fetch : Except JsError (List Task)
deriving Repr

/-- Result of `connectWallet`: final state, whether account authorization
(`eth_requestAccounts`) was requested, and the terminal toast if any. -/
structure ConnectOutcome where
  state : AppState
  accountsRequested : Bool
  report : Option Report
deriving Repr, DecidableEq

/-- `connectWallet` embedded in source order: provider check, network
check (early return on mismatch, before any account request), account
authorization, contract construction, `getCode` probe rejecting `"0x"`,
then `setAccount`/`setContract` and `loadTasks(taskContract)` (whose
guard reads the pre-`setAccount` account value), ending with the success
toast.  The catch toasts `error.message || "Failed to connect wallet"`;
`finally` clears `loading` on every path. -/
def connectWallet (s : AppState) (env : ConnectEnv) : ConnectOutcome :=
  if !env.hasEthereum then
    { state := { s with loading := false }, accountsRequested := false,
      report := some (.errorToast (msgOr "MetaMask is not installed" "Failed to connect wallet")) }
  else
    let chk := checkNetwork env.network
    if !chk.1 then
      { state := { s with loading := false }, accountsRequested := false,
        report := chk.2 }
    else
      match env.accounts with
      | .error e =>
        { state := { s with loading := false }, accountsRequested := true,
          report := some (.errorToast (msgOr e.message "Failed to connect wallet")) }
      | .ok accounts =>
        match env.code with
        | .error e =>
          { state := { s with loading := false }, accountsRequested := true,
            report := some (.errorToast (msgOr e.message "Failed to connect wallet")) }
        | .ok code =>
          if code = "0x" then
            { state := { s with loading := false }, accountsRequested := true,
              report := some (.errorToast (msgOr "Contract not deployed at specified address" "Failed to connect wallet")) }
          else
            let s1 := { s with account := accounts.headD "", contract := true }
            let s2 := runLoadTasks s.account s1 env.fetch
            { state := { s2 with loading := false }, accountsRequested := true,
              report := some .connectSuccess }

/-! ### Helper lemmas -/

instance : IsTotal Task (fun a b : Task => b.id ≤ a.id) :=
  ⟨fun a b => Nat.le_total b.id a.id⟩

instance : IsTrans Task (fun a b : Task => b.id ≤ a.id) :=
  ⟨fun _ _ _ h1 h2 => Nat.le_trans h2 h1⟩

theorem activeTasks_perm (ts : List Task) :
    List.Perm (activeTasks ts) (ts.filter (fun t => !t.isDeleted)) :=
  List.perm_insertionSort _ _

theorem activeTasks_sorted (ts : List Task) :
    List.Sorted (fun a b : Task => b.id ≤ a.id) (activeTasks ts) :=
  List.sorted_insertionSort _ _

theorem jsTrim_eq_empty_of_whitespace (s : String)
    (h : ∀ c ∈ s.data, isJsWhitespace c = true) : jsTrim s = "" := by
  unfold jsTrim
  rw [List.dropWhile_eq_nil_iff.mpr h]
  rfl

theorem validateTaskInput_fails (d : Draft)
    (h : jsTrim d.title = "" ∨ jsTrim d.text = "" ∨
         100 < d.title.length ∨ 500 < d.text.length) :
    validateTaskInput d ≠ none := by
  unfold validateTaskInput
  split
  · simp
  · split
    · simp
    · split
      · simp
      · split
        · simp
        · rename_i h1 h2 h3 h4
          rcases h with h | h | h | h
          · exact absurd h h1
          · exact absurd h h2
          · exact absurd h h3
          · exact absurd h h4

theorem validateTaskInput_some_isValidation (d : Draft) (r : Report)
    (h : validateTaskInput d = some r) : r.isValidation = true := by
  unfold validateTaskInput at h
  split at h
  · injection h with h; subst h; rfl
  · split at h
    · injection h with h; subst h; rfl
    · split at h
      · injection h with h; subst h; rfl
      · split at h
        · injection h with h; subst h; rfl
        · exact Option.noConfusion h

theorem addTask_invalid_no_call (s : AppState) (net : TxOutcome)
    (refetch : Except JsError (List Task)) (ha : s.account ≠ "")
    (h : validateTaskInput s.newTask ≠ none) :
    (addTask s net refetch).call = none ∧
    ((addTask s net refetch).report).isValidation = true := by
  rcases ho : validateTaskInput s.newTask with _ | r
  · exact absurd ho h
  · exact ⟨by simp [addTask, ha, ho],
           by simp [addTask, ha, ho, validateTaskInput_some_isValidation _ _ ho]⟩

/-! ### Claim theorems -/

/-- C1: for every task set returned by `getMyTask`, `loadTasks` replaces
the local task list with exactly the tasks whose `isDeleted` field is
false (a permutation of the filter), sorted by `id` descending, and a
second load of the same remote set yields the identical local list. -/
theorem C1_load_filters_and_sorts (s : AppState) (ts : List Task)
    (ha : s.account ≠ "") (hc : s.contract = true) :
    (loadTasksState s (.ok ts)).tasks = activeTasks ts ∧
    List.Perm (activeTasks ts) (ts.filter (fun t => !t.isDeleted)) ∧
    List.Sorted (fun a b : Task => b.id ≤ a.id) (activeTasks ts) ∧
    (loadTasksState (loadTasksState s (.ok ts)) (.ok ts)).tasks =
      (loadTasksState s (.ok ts)).tasks := by
  refine ⟨?_, activeTasks_perm ts, activeTasks_sorted ts, ?_⟩ <;>
    simp [loadTasksState, runLoadTasks, loadTasksList, ha, hc]

theorem C1_witness :
    ("0xAAA" : String) ≠ "" ∧
    (loadTasksState
        { account := "0xAAA", contract := true, tasks := [],
          newTask := { title := "", text := "" }, loading := false }
        (.ok [{ id := 1, taskTitle := "one", taskText := "first", isDeleted := false },
              { id := 2, taskTitle := "two", taskText := "second", isDeleted := true }])).tasks =
      activeTasks
        [{ id := 1, taskTitle := "one", taskText := "first", isDeleted := false },
         { id := 2, taskTitle := "two", taskText := "second", isDeleted := true }] :=
  ⟨by decide,
   (C1_load_filters_and_sorts
      { account := "0xAAA", contract := true, tasks := [],
        newTask := { title := "", text := "" }, loading := false }
      [{ id := 1, taskTitle := "one", taskText := "first", isDeleted := false },
       { id := 2, taskTitle := "two", taskText := "second", isDeleted := true }]
      (by decide) rfl).1⟩

/-- C2: a draft with empty title, empty text, title longer than 100 or
text longer than 500 makes `addTask` fail one of the validation checks
and the contract's `addTask` is never invoked. -/
theorem C2_invalid_draft_no_network (s : AppState) (net : TxOutcome)
    (refetch : Except JsError (List Task)) (ha : s.account ≠ "")
    (h : s.newTask.title = "" ∨ s.newTask.text = "" ∨
         100 < s.newTask.title.length ∨ 500 < s.newTask.text.length) :
    (addTask s net refetch).call = none ∧
    ((addTask s net refetch).report).isValidation = true := by
  apply addTask_invalid_no_call s net refetch ha
  apply validateTaskInput_fails
  rcases h with h | h | h | h
  · exact Or.inl (by rw [h]; rfl)
  · exact Or.inr (Or.inl (by rw [h]; rfl))
  · exact Or.inr (Or.inr (Or.inl h))
  · exact Or.inr (Or.inr (Or.inr h))

theorem C2_witness :
    (({ account := "0xAAA", contract := true, tasks := [],
        newTask := { title := "", text := "a description" },
        loading := false } : AppState).account ≠ "" ∧
     ({ title := "", text := "a description" } : Draft).title = "") ∧
    (addTask
        { account := "0xAAA", contract := true, tasks := [],
          newTask := { title := "", text := "a description" }, loading := false }
        (.confirmed (some ["AddTask"])) (.ok [])).call = none :=
  ⟨⟨by decide, rfl⟩,
   (C2_invalid_draft_no_network
      { account := "0xAAA", contract := true, tasks := [],
        newTask := { title := "", text := "a description" }, loading := false }
      (.confirmed (some ["AddTask"])) (.ok []) (by decide) (Or.inl rfl)).1⟩

/-- C3: a confirmed `addTask` transaction whose receipt carries no
`AddTask` event ends in the missing-event failure report (the spec's
`MutationRejected`) and the draft keeps its pre-submission title and
text. -/
theorem C3_missing_add_event_keeps_draft (s : AppState)
    (events : Option (List String)) (refetch : Except JsError (List Task))
    (ha : s.account ≠ "") (hc : s.contract = true)
    (hv : validateTaskInput s.newTask = none)
    (he : receiptHasEvent events "AddTask" = false) :
    (addTask s (.confirmed events) refetch).report =
      .errorToast "Add task event not found in transaction" ∧
    (addTask s (.confirmed events) refetch).state.newTask = s.newTask := by
  simp [addTask, ha, hc, hv, he, addCatch, addEventMissing]

theorem C3_witness :
    (({ account := "0xAAA", contract := true, tasks := [],
        newTask := { title := "Title", text := "Text" },
        loading := false } : AppState).account ≠ "" ∧
     validateTaskInput { title := "Title", text := "Text" } = none ∧
     receiptHasEvent (some ["Transfer"]) "AddTask" = false) ∧
    (addTask
        { account := "0xAAA", contract := true, tasks := [],
          newTask := { title := "Title", text := "Text" }, loading := false }
        (.confirmed (some ["Transfer"])) (.ok [])).state.newTask =
      { title := "Title", text := "Text" } :=
  ⟨⟨by decide, by decide, by decide⟩,
   (C3_missing_add_event_keeps_draft
      { account := "0xAAA", contract := true, tasks := [],
        newTask := { title := "Title", text := "Text" }, loading := false }
      (some ["Transfer"]) (.ok []) (by decide) rfl (by decide) (by decide)).2⟩

/-- C4: a `deleteTask` rejection whose message contains the substring
"owner" is reported as the not-owner failure; any other rejection is
reported through the generic error toast surfacing
`error.reason || error.message`. -/
theorem C4_delete_rejection_classified (s : AppState) (taskId : Nat)
    (e : JsError) (refetch : Except JsError (List Task))
    (ha : s.account ≠ "") (hc : s.contract = true) :
    (jsIncludes e.message "owner" = true →
      (deleteTask s taskId (.rejected e) refetch).report = .notOwner) ∧
    (jsIncludes e.message "owner" = false →
      (deleteTask s taskId (.rejected e) refetch).report =
        .errorToast (e.reason.getD e.message)) := by
  constructor <;> intro h <;> simp [deleteTask, ha, hc, deleteCatch, h]

theorem C4_witness :
    (("0xAAA" : String) ≠ "" ∧
     jsIncludes "execution reverted: Not the task owner" "owner" = true) ∧
    (deleteTask
        { account := "0xAAA", contract := true, tasks := [],
          newTask := { title := "", text := "" }, loading := false }
        3
        (.rejected { message := "execution reverted: Not the task owner",
                     reason := some "Not the task owner" })
        (.ok [])).report = .notOwner :=
  ⟨⟨by decide, by decide⟩,
   (C4_delete_rejection_classified
      { account := "0xAAA", contract := true, tasks := [],
        newTask := { title := "", text := "" }, loading := false }
      3
      { message := "execution reverted: Not the task owner",
        reason := some "Not the task owner" }
      (.ok []) (by decide) rfl).1 (by decide)⟩

/-- C5 counterexample: with a mutation outstanding (`loading = true`),
a `deleteTask` call still invokes the contract (`call = some 1`) and
even reports success; there is no busy rejection in the code. -/
theorem C5_counterexample :
    ({ account := "0xAAA", contract := true, tasks := [],
       newTask := { title := "", text := "" }, loading := true } : AppState).loading = true ∧
    (deleteTask
        { account := "0xAAA", contract := true, tasks := [],
          newTask := { title := "", text := "" }, loading := true }
        1 (.confirmed (some ["DeleteTask"])) (.ok [])).call = some 1 ∧
    (deleteTask
        { account := "0xAAA", contract := true, tasks := [],
          newTask := { title := "", text := "" }, loading := true }
        1 (.confirmed (some ["DeleteTask"])) (.ok [])).report = .deleteSuccess := by
  decide

/-- C5 amended: while a mutation is outstanding the UI layer disables
the mutation triggers (`disabled={loading}`), but the component's
mutation function itself has no busy guard — a second `deleteTask` call
on a connected session still issues the network call. -/
theorem C5_amended_no_busy_guard (s : AppState) (taskId : Nat)
    (net : TxOutcome) (refetch : Except JsError (List Task))
    (ha : s.account ≠ "") (hc : s.contract = true) (hl : s.loading = true) :
    deleteButtonDisabled s = true ∧
    (deleteTask s taskId net refetch).call = some taskId := by
  refine ⟨by simp [deleteButtonDisabled, hl], ?_⟩
  cases net with
  | rejected e => simp [deleteTask, ha, hc]
  | confirmed events =>
    by_cases he : receiptHasEvent events "DeleteTask" = true <;>
      simp [deleteTask, ha, hc, he]

theorem C5_amended_witness :
    (({ account := "0xAAA", contract := true, tasks := [],
        newTask := { title := "", text := "" },
        loading := true } : AppState).account ≠ "" ∧
     ({ account := "0xAAA", contract := true, tasks := [],
        newTask := { title := "", text := "" },
        loading := true } : AppState).loading = true) ∧
    (deleteTask
        { account := "0xAAA", contract := true, tasks := [],
          newTask := { title := "", text := "" }, loading := true }
        2 (.rejected { message := "user rejected transaction", reason := none })
        (.ok [])).call = some 2 :=
  ⟨⟨by decide, rfl⟩,
   (C5_amended_no_busy_guard
      { account := "0xAAA", contract := true, tasks := [],
        newTask := { title := "", text := "" }, loading := true }
      2 (.rejected { message := "user rejected transaction", reason := none })
      (.ok []) (by decide) rfl rfl).2⟩

/-- C6: an `accountsChanged` notification with an empty account list
clears the session address and empties the local task list. -/
theorem C6_empty_accounts_disconnect (s : AppState)
    (fetch : Except JsError (List Task)) :
    (handleAccountChange s [] fetch).account = "" ∧
    (handleAccountChange s [] fetch).tasks = [] := by
  simp [handleAccountChange]

/-- C7: when the active network's chain id differs from the configured
expected one, `connectWallet` reports the wrong-network toast, never
requests account authorization, and leaves both the account address and
the contract handle untouched. -/
theorem C7_wrong_network_aborts (s : AppState) (env : ConnectEnv)
    (chainId : Nat) (hE : env.hasEthereum = true)
    (hn : env.network = .ok chainId) (hne : chainId ≠ expectedNetwork) :
    (connectWallet s env).report = some .wrongNetwork ∧
    (connectWallet s env).accountsRequested = false ∧
    (connectWallet s env).state.account = s.account ∧
    (connectWallet s env).state.contract = s.contract := by
  simp [connectWallet, checkNetwork, hE, hn, hne]

theorem C7_witness :
    (({ hasEthereum := true, network := .ok 5, accounts := .ok ["0xAAA"],
        code := .ok "0x6080", fetch := .ok [] } : ConnectEnv).hasEthereum = true ∧
     (5 : Nat) ≠ expectedNetwork) ∧
    ((connectWallet
        { account := "", contract := false, tasks := [],
          newTask := { title := "", text := "" }, loading := false }
        { hasEthereum := true, network := .ok 5, accounts := .ok ["0xAAA"],
          code := .ok "0x6080", fetch := .ok [] }).report = some .wrongNetwork ∧
     (connectWallet
        { account := "", contract := false, tasks := [],
          newTask := { title := "", text := "" }, loading := false }
        { hasEthereum := true, network := .ok 5, accounts := .ok ["0xAAA"],
          code := .ok "0x6080", fetch := .ok [] }).accountsRequested = false) :=
  ⟨⟨rfl, by decide⟩,
   ⟨(C7_wrong_network_aborts
       { account := "", contract := false, tasks := [],
         newTask := { title := "", text := "" }, loading := false }
       { hasEthereum := true, network := .ok 5, accounts := .ok ["0xAAA"],
         code := .ok "0x6080", fetch := .ok [] } 5 rfl rfl (by decide)).1,
    (C7_wrong_network_aborts
       { account := "", contract := false, tasks := [],
         newTask := { title := "", text := "" }, loading := false }
       { hasEthereum := true, network := .ok 5, accounts := .ok ["0xAAA"],
         code := .ok "0x6080", fetch := .ok [] } 5 rfl rfl (by decide)).2.1⟩⟩

/-- C8: a failed fetch in `loadTasks` leaves the previously held local
task list unchanged and the session address untouched. -/
theorem C8_failed_load_retains_state (s : AppState) (e : JsError) :
    (loadTasksState s (.error e)).tasks = s.tasks ∧
    (loadTasksState s (.error e)).account = s.account := by
  unfold loadTasksState runLoadTasks loadTasksList
  split
  · exact ⟨rfl, rfl⟩
  · simp

/-- C9 counterexample: on the same remote task set, App.jsx's
`fetchTasks` (filter only) and part_000's `loadTasks` (filter then sort
by id descending) disagree: ids arriving in ascending order stay
ascending in the former and are reversed in the latter. -/
theorem C9_counterexample :
    fetchTasks true []
        (.ok [{ id := 1, taskTitle := "one", taskText := "first", isDeleted := false },
              { id := 2, taskTitle := "two", taskText := "second", isDeleted := false }]) ≠
      loadTasksList "0xAAA" true []
        (.ok [{ id := 1, taskTitle := "one", taskText := "first", isDeleted := false },
              { id := 2, taskTitle := "two", taskText := "second", isDeleted := false }]) := by
  decide

/-- C9 amended: on the same successful fetch the two load operations
keep the same set of tasks (their results are permutations of each
other), and they produce the identical list exactly when the filtered
remote list is already sorted by id descending. -/
theorem C9_amended_same_up_to_order (account : String) (prev ts : List Task)
    (ha : account ≠ "") :
    List.Perm (loadTasksList account true prev (.ok ts))
      (fetchTasks true prev (.ok ts)) ∧
    (List.Sorted (fun a b : Task => b.id ≤ a.id) (ts.filter (fun t => !t.isDeleted)) →
      loadTasksList account true prev (.ok ts) = fetchTasks true prev (.ok ts)) := by
  constructor
  · simpa [loadTasksList, fetchTasks, ha, activeTasks] using
      List.perm_insertionSort (fun a b : Task => b.id ≤ a.id)
        (ts.filter (fun t => !t.isDeleted))
  · intro hs
    simp [loadTasksList, fetchTasks, ha, activeTasks, hs.insertionSort_eq]

theorem C9_amended_witness :
    ("0xAAA" : String) ≠ "" ∧
    List.Perm
      (loadTasksList "0xAAA" true []
        (.ok [{ id := 2, taskTitle := "two", taskText := "second", isDeleted := false },
              { id := 1, taskTitle := "one", taskText := "first", isDeleted := true }]))
      (fetchTasks true []
        (.ok [{ id := 2, taskTitle := "two", taskText := "second", isDeleted := false },
              { id := 1, taskTitle := "one", taskText := "first", isDeleted := true }])) :=
  ⟨by decide,
   (C9_amended_same_up_to_order "0xAAA" []
      [{ id := 2, taskTitle := "two", taskText := "second", isDeleted := false },
       { id := 1, taskTitle := "one", taskText := "first", isDeleted := true }]
      (by decide)).1⟩

/-- C10: a draft whose title or text is all whitespace fails validation
with no contract invocation (trimmed emptiness, though the raw length is
positive), and when validation passes the values sent to the contract
are the trimmed text and title with `isDeleted = false`. -/
theorem C10_whitespace_and_trim (s : AppState) (net : TxOutcome)
    (refetch : Except JsError (List Task)) (ha : s.account ≠ "")
    (hc : s.contract = true) :
    ((∀ c ∈ s.newTask.title.data, isJsWhitespace c = true) →
      (addTask s net refetch).call = none ∧
      ((addTask s net refetch).report).isValidation = true) ∧
    ((∀ c ∈ s.newTask.text.data, isJsWhitespace c = true) →
      (addTask s net refetch).call = none ∧
      ((addTask s net refetch).report).isValidation = true) ∧
    (validateTaskInput s.newTask = none →
      (addTask s net refetch).call =
        some { text := jsTrim s.newTask.text, title := jsTrim s.newTask.title,
               isDeleted := false }) := by
  refine ⟨?_, ?_, ?_⟩
  · intro hw
    exact addTask_invalid_no_call s net refetch ha
      (validateTaskInput_fails _ (Or.inl (jsTrim_eq_empty_of_whitespace _ hw)))
  · intro hw
    exact addTask_invalid_no_call s net refetch ha
      (validateTaskInput_fails _ (Or.inr (Or.inl (jsTrim_eq_empty_of_whitespace _ hw))))
  · intro hv
    cases net with
    | rejected e => simp [addTask, ha, hc, hv]
    | confirmed events =>
      by_cases he : receiptHasEvent events "AddTask" = true <;>
        simp [addTask, ha, hc, hv, he]

theorem C10_witness :
    (({ account := "0xAAA", contract := true, tasks := [],
        newTask := { title := "  \x09", text := "body" },
        loading := false } : AppState).account ≠ "" ∧
     (∀ c ∈ ("  \x09" : String).data, isJsWhitespace c = true) ∧
     ("  \x09" : String).length = 3) ∧
    (addTask
        { account := "0xAAA", contract := true, tasks := [],
          newTask := { title := "  \x09", text := "body" }, loading := false }
        (.confirmed (some ["AddTask"])) (.ok [])).call = none :=
  ⟨⟨by decide, by decide, by decide⟩,
   ((C10_whitespace_and_trim
       { account := "0xAAA", contract := true, tasks := [],
         newTask := { title := "  \x09", text := "body" }, loading := false }
       (.confirmed (some ["AddTask"])) (.ok []) (by decide) rfl).1
      (by decide)).1⟩

end Dapp
